import Mathlib

set_option linter.unusedVariables false

/-!
Verification of the thumbnail lifecycle engine (`thumbnails/files.py`):
the `ThumbnailManager` façade, its in-memory cache, the free `exists` /
`delete` functions, and the batch-prefetch coordinator.  The manager code
is embedded from `src/thumbnails/files.py`; the collaborators that live in
modules absent from `src/` (`images.py`, `metadata.py`, `fields.py`) are
modelled from the spec, each marked as such in its doc comment.  Backend
effects are made observable by threading an explicit `Sys` state that
counts Metadata Store queries and generator invocations.
-/

namespace Thumbnails

/-- A persisted thumbnail descriptor: `{source_id, size_name, storage_path}`
(spec §3, `ThumbnailDescriptor`; `created_at` carries no behavior and is
omitted). -/
structure ImageMeta where
  source : String
  size : String
  path : String
deriving DecidableEq, Repr

/-- A resolved thumbnail handle wrapping an optional descriptor
(`Thumbnail(metadata=..., storage=...)` in the source; the storage handle
carries no data relevant to the claims). -/
structure Thumbnail where
  metadata : Option ImageMeta
deriving DecidableEq, Repr

/-- The storage path of a thumbnail handle, when it has a descriptor. -/
def Thumbnail.storagePath (t : Thumbnail) : Option String :=
  t.metadata.map (fun m => m.path)

/-- A Thumbnail-like handle backed by a static URL (`FallbackImage`). -/
structure FallbackImage where
  url : String
deriving DecidableEq, Repr

/-- One Size Registry entry; only the optional `FALLBACK_IMAGE_URL` option
matters to the manager code under verification. -/
structure SizeSpec where
  fallbackImageUrl : Option String
deriving DecidableEq, Repr

/-- The Size Registry `conf.SIZES`: size name to configuration. -/
abbrev Registry := List (String × SizeSpec)

/-- Registry lookup (`conf.SIZES[name]` / `name in conf.SIZES.keys()`). -/
def regLookup (sizes : Registry) (name : String) : Option SizeSpec :=
  match sizes with
  | [] => none
  | (n, sp) :: rest => if n = name then some sp else regLookup rest name

/-- The world outside the manager: the Metadata Store's descriptors, the
blob paths written so far, a fresh-name counter (the source uses `uuid4`
for collision-resistant blob names), and counters making backend effects
observable: `storeQueries` counts Metadata Store read queries and
`genCalls` counts thumbnail-generator invocations. -/
structure Sys where
  store : List ImageMeta
  blobs : List String
  nextId : Nat
  storeQueries : Nat
  genCalls : Nat
deriving DecidableEq, Repr

/-- Find the descriptor persisted for a `(source, size)` pair. -/
def storeLookup (store : List ImageMeta) (source size : String) : Option ImageMeta :=
  store.find? (fun m => m.source == source && m.size == size)

/-- Modelled from the spec: `images.get` (in `images.py`, not under `src/`)
queries the Metadata Store once for an existing descriptor of the pair and
wraps it into a Thumbnail, returning absent on a store miss (§4.1: on a
cache miss, query the store; if found, wrap). -/
def imagesGet (sourceName size : String) (s : Sys) : Option Thumbnail × Sys :=
  let s1 : Sys := { s with storeQueries := s.storeQueries + 1 }
  match storeLookup s.store sourceName size with
  | some m => (some ⟨some m⟩, s1)
  | none => (none, s1)

/-- Modelled from the spec: `images.create` (in `images.py`, not under
`src/`) — the Thumbnail Generator of §4.3: writes the thumbnail bytes to a
fresh, collision-resistant blob path, records the descriptor with the
Metadata Store (replacing any previous descriptor of the pair: last write
wins, keeping the one-descriptor-per-pair invariant), and returns the
resolved Thumbnail. -/
def imagesCreate (sourceName size : String) (s : Sys) : Thumbnail × Sys :=
  let path := sourceName ++ "_" ++ size ++ "_" ++ toString s.nextId
  let m : ImageMeta := ⟨sourceName, size, path⟩
  (⟨some m⟩,
    { store := m :: s.store.filter (fun x => !(x.source == sourceName && x.size == size))
      blobs := path :: s.blobs
      nextId := s.nextId + 1
      storeQueries := s.storeQueries
      genCalls := s.genCalls + 1 })

/-- Modelled from the spec: `images.delete` (in `images.py`, not under
`src/`) removes the stored blob and the metadata descriptor of the pair
(§4.1 `delete(size)`). -/
def imagesDelete (sourceName size : String) (s : Sys) : Sys :=
  let doomed := (s.store.filter (fun x => x.source == sourceName && x.size == size)).map
    (fun m => m.path)
  { s with
    store := s.store.filter (fun x => !(x.source == sourceName && x.size == size))
    blobs := s.blobs.filter (fun p => !(doomed.contains p)) }

/-- Modelled from the spec: the Metadata Store's `get_thumbnails` (§4.2
`get_all`) returns every descriptor of the given source in one query. -/
def getThumbnailsQuery (sourceName : String) (s : Sys) : List ImageMeta × Sys :=
  (s.store.filter (fun m => m.source == sourceName),
   { s with storeQueries := s.storeQueries + 1 })

/-- The manager's `_thumbnails` dict: `d.get(k)`. -/
def dictGet (d : List (String × Thumbnail)) (k : String) : Option Thumbnail :=
  match d with
  | [] => none
  | (j, v) :: rest => if j = k then some v else dictGet rest k

/-- `d[k] = v` on the `_thumbnails` dict. -/
def dictInsert (d : List (String × Thumbnail)) (k : String) (v : Thumbnail) :
    List (String × Thumbnail) :=
  (k, v) :: d.filter (fun p => p.1 != k)

/-- `del d[k]` on the `_thumbnails` dict (the key is assumed present). -/
def dictErase (d : List (String × Thumbnail)) (k : String) : List (String × Thumbnail) :=
  d.filter (fun p => p.1 != k)

/-- The key set of the `_thumbnails` dict. -/
def dictKeys (d : List (String × Thumbnail)) : List String :=
  d.map (fun p => p.1)

/-- `ThumbnailManager` (files.py 32–97): a per-source façade holding the
metadata backend, storage, the source image and the `_thumbnails` cache.
An unbound / falsy source image is modelled by the empty name. -/
structure ThumbnailManager where
  sourceImage : String
  thumbnails : List (String × Thumbnail)
deriving DecidableEq, Repr

/-- `ThumbnailManager.__init__` (files.py 35–39): the cache field
`_thumbnails` starts as the empty dict `{}`. -/
def ThumbnailManager.mk0 (sourceImage : String) : ThumbnailManager :=
  ⟨sourceImage, []⟩

/-- `ThumbnailManager.create` (files.py 83–89): calls `images.create` and
returns the thumbnail.  As in the source, the `_thumbnails` cache is not
touched. -/
def ThumbnailManager.create (mgr : ThumbnailManager) (size : String) (s : Sys) :
    Thumbnail × Sys :=
  imagesCreate mgr.sourceImage size s

/-- `ThumbnailManager.get_thumbnail` (files.py 62–81): check the cache; on
a miss query via `images.get`; on a store miss call `self.create`; cache
the result.  The `create` flag is accepted but, exactly as in the source,
never read in the body. -/
def ThumbnailManager.get_thumbnail (mgr : ThumbnailManager) (size : String)
    (create : Bool) (s : Sys) : Thumbnail × ThumbnailManager × Sys :=
  match dictGet mgr.thumbnails size with
  | some t => (t, mgr, s)
  | none =>
    match imagesGet mgr.sourceImage size s with
    | (some t, s1) => (t, { mgr with thumbnails := dictInsert mgr.thumbnails size t }, s1)
    | (none, s1) =>
      let r := mgr.create size s1
      (r.1, { mgr with thumbnails := dictInsert mgr.thumbnails size r.1 }, r.2)

/-- `ThumbnailManager.all` (files.py 53–60): one store query for all
descriptors of this source, merge each into the cache, return the merged
cache. -/
def ThumbnailManager.all (mgr : ThumbnailManager) (s : Sys) :
    List (String × Thumbnail) × ThumbnailManager × Sys :=
  let q := getThumbnailsQuery mgr.sourceImage s
  let cache := q.1.foldl (fun c m => dictInsert c m.size ⟨some m⟩) mgr.thumbnails
  (cache, { mgr with thumbnails := cache }, q.2)

/-- `ThumbnailManager.delete` (files.py 91–97): backend blob/metadata
deletion via `images.delete` first, then `del self._thumbnails[size]`,
which raises `KeyError` when the size is not a cache key. -/
def ThumbnailManager.delete (mgr : ThumbnailManager) (size : String) (s : Sys) :
    Sys × Except String ThumbnailManager :=
  let s1 := imagesDelete mgr.sourceImage size s
  if (dictGet mgr.thumbnails size).isSome then
    (s1, Except.ok { mgr with thumbnails := dictErase mgr.thumbnails size })
  else
    (s1, Except.error "KeyError")

/-- The possible outcomes of `ThumbnailManager.__getattr__`. -/
inductive AttrResult where
  | fb (f : FallbackImage)
  | thumb (t : Thumbnail)
  | attrError (msg : String)
deriving DecidableEq, Repr

/-- `ThumbnailManager.__getattr__` (files.py 41–51): a name in
`conf.SIZES` resolves, for an unbound source, to the configured
`FallbackImage` or an empty Thumbnail, otherwise to `get_thumbnail`; any
other name raises `AttributeError`. -/
def ThumbnailManager.getattr (sizes : Registry) (mgr : ThumbnailManager)
    (name : String) (s : Sys) : AttrResult × ThumbnailManager × Sys :=
  match regLookup sizes name with
  | some sp =>
    if mgr.sourceImage = "" then
      match sp.fallbackImageUrl with
      | some u => (AttrResult.fb ⟨u⟩, mgr, s)
      | none => (AttrResult.thumb ⟨none⟩, mgr, s)
    else
      let r := mgr.get_thumbnail name true s
      (AttrResult.thumb r.1, r.2.1, r.2.2)
  | none => (AttrResult.attrError "no attribute", mgr, s)

/-- Modelled from the spec (§7, and `test_fields.py` 124, 141–142):
accessing the `url` attribute of a Thumbnail whose metadata is empty fails
with an unresolvable-no-source error (`Thumbnail` lives in `images.py`,
not under `src/`). -/
def Thumbnail.url (t : Thumbnail) : Except String String :=
  match t.metadata with
  | some m => Except.ok m.path
  | none => Except.error "unresolvable: no source"

/-- The free `exists` function (files.py 100–105), parameterized by the
metadata path resolver `get_path` (`metadata.py`, not under `src/`) and
the blob-store backend.  Returns the answer together with the number of
backend `exists` calls made. -/
def filesExists (getPathFn : String → Option String → Option String)
    (backendExistsFn : String → Bool)
    (sourceName : String) (size : Option String) : Bool × Nat :=
  match getPathFn sourceName size with
  | some p => (backendExistsFn p, 1)
  | none => (false, 0)

/-- The free `delete` function (files.py 108–110): no `None` guard — the
resolved path, present or not, is handed to the backend's `delete`.
Returns the backend's answer together with the argument that was passed
to it. -/
def filesDelete (getPathFn : String → Option String → Option String)
    (backendDeleteFn : Option String → Bool)
    (sourceName : String) (size : Option String) : Bool × Option String :=
  (backendDeleteFn (getPathFn sourceName size), getPathFn sourceName size)

/-- A Metadata Store backend instance as the Fetch Coordinator sees it:
an identity for grouping, a batch-multi-get capability flag, and its
descriptors. -/
structure MetaBackend where
  ident : Nat
  supportsBatch : Bool
  store : List ImageMeta
deriving DecidableEq, Repr

/-- A source image together with the backend its manager uses and its
manager's `_thumbnails` cache, as handled by the Fetch Coordinator. -/
structure FetchImage where
  name : String
  backend : MetaBackend
  cache : List (String × Thumbnail)
deriving DecidableEq, Repr

/-- Merge the descriptors a bulk `get_many` returned for one image into
that image's manager cache (exactly as `all()` merges). -/
def mergeBulk (b : MetaBackend) (img : FetchImage) : FetchImage :=
  let metas := b.store.filter (fun m => m.source == img.name)
  { img with cache := metas.foldl (fun c m => dictInsert c m.size ⟨some m⟩) img.cache }

/-- Modelled from the spec (§4.4): the per-group loop of
`fetch_thumbnails` (`fields.py`, not under `src/`).  Groups are processed
in order; a group whose backend does not support batch multi-get fails at
once with `NotImplementedError`, performing no query at all for that group
and no per-image fallback query; a supporting group is resolved with one
bulk query whose descriptors are merged into each member's cache.  The
returned number counts the Metadata Store queries performed, all of them
bulk: the model, like the spec, never degrades to per-image queries. -/
def fetchGroups (images : List FetchImage) (idents : List Nat) :
    Except String (List FetchImage) × Nat :=
  match idents with
  | [] => (Except.ok images, 0)
  | i :: rest =>
    match images.find? (fun img => img.backend.ident == i) with
    | none => fetchGroups images rest
    | some rep =>
      if rep.backend.supportsBatch then
        let images2 := images.map (fun img =>
          if img.backend.ident == i then mergeBulk rep.backend img else img)
        let pr := fetchGroups images2 rest
        (pr.1, pr.2 + 1)
      else
        (Except.error "NotImplementedError", 0)

/-- Modelled from the spec (§4.4): `fetch_thumbnails(images)` groups the
images by Metadata Store backend instance and resolves each group with a
single bulk query, or fails with `NotImplementedError` on a group whose
backend lacks batch multi-get. -/
def fetch_thumbnails (images : List FetchImage) :
    Except String (List FetchImage) × Nat :=
  fetchGroups images ((images.map (fun i => i.backend.ident)).dedup)

/-! ## Shared lemmas -/

theorem dictGet_dictInsert_self (d : List (String × Thumbnail)) (k : String)
    (v : Thumbnail) : dictGet (dictInsert d k v) k = some v := by
  simp [dictGet, dictInsert]

theorem storeLookup_imagesDelete (sourceName size : String) (s : Sys) :
    storeLookup (imagesDelete sourceName size s).store sourceName size = none := by
  simp only [storeLookup, imagesDelete, List.find?_eq_none, List.mem_filter]
  intro m hm
  exact fun hpred => by simp [hpred] at hm

theorem mem_dictKeys_dictInsert (d : List (String × Thumbnail)) (k j : String)
    (v : Thumbnail) : j ∈ dictKeys (dictInsert d k v) ↔ j = k ∨ j ∈ dictKeys d := by
  simp only [dictKeys, dictInsert, List.map_cons, List.mem_cons, List.mem_map,
    List.mem_filter]
  constructor
  · rintro (h | ⟨p, ⟨hp, _⟩, rfl⟩)
    · exact Or.inl h
    · exact Or.inr ⟨p, hp, rfl⟩
  · rintro (h | ⟨p, hp, rfl⟩)
    · exact Or.inl h
    · by_cases hk : p.1 = k
      · exact Or.inl hk
      · exact Or.inr ⟨p, ⟨hp, by simp [hk]⟩, rfl⟩

theorem mem_dictKeys_foldl (ms : List ImageMeta) (d : List (String × Thumbnail))
    (j : String) :
    j ∈ dictKeys (ms.foldl (fun c m => dictInsert c m.size ⟨some m⟩) d) ↔
      j ∈ dictKeys d ∨ j ∈ ms.map (fun m => m.size) := by
  induction ms generalizing d with
  | nil => simp
  | cons m rest ih =>
    simp only [List.foldl_cons, ih, mem_dictKeys_dictInsert, List.map_cons,
      List.mem_cons]
    tauto

/-! ## Claims -/

/-- C1 (evaluation at the failing input): on a Manager bound to source
`avatar.png` with an empty Metadata Store, `get_thumbnail "small"` with
`create := false` still invokes the generator once, persists a new
descriptor, caches and returns a non-absent handle — the `create` flag is
declared in the source but never read, so the claimed
absent-without-generating behavior does not happen. -/
theorem c1_get_create_false_still_generates :
    ((ThumbnailManager.mk0 "avatar.png").get_thumbnail "small" false
        ⟨[], [], 0, 0, 0⟩).2.2.genCalls = 1 ∧
    ((ThumbnailManager.mk0 "avatar.png").get_thumbnail "small" false
        ⟨[], [], 0, 0, 0⟩).1.metadata.isSome = true ∧
    (storeLookup ((ThumbnailManager.mk0 "avatar.png").get_thumbnail "small" false
        ⟨[], [], 0, 0, 0⟩).2.2.store "avatar.png" "small").isSome = true := by
  decide

/-- C5: on a Manager with no bound source image, attribute access to a
registered size with a configured fallback URL returns a `FallbackImage`
carrying exactly that URL; attribute access to a registered size with no
fallback returns, without error, a Thumbnail with empty metadata, and only
the deferred `url` access on that handle fails with the
unresolvable-no-source error. -/
theorem c5_unbound_source_fallback_behavior (sizes : Registry)
    (mgr : ThumbnailManager) (s : Sys) (nameS nameT u : String)
    (hsrc : mgr.sourceImage = "")
    (hS : regLookup sizes nameS = some ⟨some u⟩)
    (hT : regLookup sizes nameT = some ⟨none⟩) :
    ThumbnailManager.getattr sizes mgr nameS s = (AttrResult.fb ⟨u⟩, mgr, s) ∧
    ThumbnailManager.getattr sizes mgr nameT s = (AttrResult.thumb ⟨none⟩, mgr, s) ∧
    Thumbnail.url ⟨none⟩ = Except.error "unresolvable: no source" := by
  refine ⟨?_, ?_, rfl⟩ <;> simp [ThumbnailManager.getattr, hS, hT, hsrc]

/-- C5 witness: a concrete registry where `default` has a fallback URL and
`large` does not, and a Manager with an unbound source. -/
theorem c5_unbound_source_fallback_behavior_witness :
    ThumbnailManager.getattr [("default", ⟨some "http://fb.png"⟩), ("large", ⟨none⟩)]
        (ThumbnailManager.mk0 "") "default" ⟨[], [], 0, 0, 0⟩ =
      (AttrResult.fb ⟨"http://fb.png"⟩, ThumbnailManager.mk0 "", ⟨[], [], 0, 0, 0⟩) ∧
    ThumbnailManager.getattr [("default", ⟨some "http://fb.png"⟩), ("large", ⟨none⟩)]
        (ThumbnailManager.mk0 "") "large" ⟨[], [], 0, 0, 0⟩ =
      (AttrResult.thumb ⟨none⟩, ThumbnailManager.mk0 "", ⟨[], [], 0, 0, 0⟩) ∧
    Thumbnail.url ⟨none⟩ = Except.error "unresolvable: no source" :=
  c5_unbound_source_fallback_behavior
    [("default", ⟨some "http://fb.png"⟩), ("large", ⟨none⟩)]
    (ThumbnailManager.mk0 "") ⟨[], [], 0, 0, 0⟩ "default" "large" "http://fb.png"
    rfl (by decide) (by decide)

/-- C6 (evaluation at the failing input): a freshly constructed
`ThumbnailManager` has its `_thumbnails` cache already set to the empty
mapping `{}` — not to a nil/unqueried sentinel distinct from an empty
mapping, as the claim (and the repository's own `test_thumbnails_cache`,
which asserts `_thumbnails is None` on a fresh manager) requires. -/
theorem c6_fresh_manager_cache_is_empty_mapping :
    (ThumbnailManager.mk0 "avatar.png").thumbnails = [] := rfl

/-- C8: deleting a size that is not a key of the in-memory cache first
performs the backend blob/metadata deletion (the returned state is exactly
the one `images.delete` produces, and the pair's descriptor is gone from
it) and then fails with `KeyError` from `del self._thumbnails[size]` — the
state changes before the error. -/
theorem c8_delete_uncached_deletes_backend_then_keyerror
    (mgr : ThumbnailManager) (size : String) (s : Sys)
    (h : dictGet mgr.thumbnails size = none) :
    ThumbnailManager.delete mgr size s =
      (imagesDelete mgr.sourceImage size s, Except.error "KeyError") ∧
    storeLookup (ThumbnailManager.delete mgr size s).1.store
      mgr.sourceImage size = none := by
  constructor
  · simp [ThumbnailManager.delete, h]
  · simp only [ThumbnailManager.delete, h, Option.isSome_none, Bool.false_eq_true,
      if_false]
    exact storeLookup_imagesDelete mgr.sourceImage size s

/-- C8 witness: a manager whose cache lacks `small` while the store holds a
descriptor for it; delete removes the descriptor and errors. -/
theorem c8_delete_uncached_deletes_backend_then_keyerror_witness :
    dictGet (ThumbnailManager.mk0 "avatar.png").thumbnails "small" = none ∧
    (ThumbnailManager.delete (ThumbnailManager.mk0 "avatar.png") "small"
        ⟨[⟨"avatar.png", "small", "p0"⟩], ["p0"], 1, 0, 1⟩).2 =
      Except.error "KeyError" ∧
    storeLookup (ThumbnailManager.delete (ThumbnailManager.mk0 "avatar.png") "small"
        ⟨[⟨"avatar.png", "small", "p0"⟩], ["p0"], 1, 0, 1⟩).1.store
      "avatar.png" "small" = none := by
  have h := c8_delete_uncached_deletes_backend_then_keyerror
    (ThumbnailManager.mk0 "avatar.png") "small"
    ⟨[⟨"avatar.png", "small", "p0"⟩], ["p0"], 1, 0, 1⟩ (by decide)
  exact ⟨by decide, by rw [h.1], h.2⟩

/-- C9: whenever the metadata path resolver yields no path, the free
`exists` function answers `false` with zero blob-backend calls, while the
free `delete` function performs no such guard and hands the absent path
(`None`) straight to the backend's delete. -/
theorem c9_exists_guards_none_path_delete_does_not
    (getPathFn : String → Option String → Option String)
    (backendExistsFn : String → Bool) (backendDeleteFn : Option String → Bool)
    (n : String) (sz : Option String)
    (h : getPathFn n sz = none) :
    filesExists getPathFn backendExistsFn n sz = (false, 0) ∧
    (filesDelete getPathFn backendDeleteFn n sz).2 = none ∧
    (filesDelete getPathFn backendDeleteFn n sz).1 = backendDeleteFn none := by
  simp [filesExists, filesDelete, h]

/-- C9 witness: a resolver that knows no path for (`gone.png`, `small`). -/
theorem c9_exists_guards_none_path_delete_does_not_witness :
    filesExists (fun _ _ => none) (fun _ => true) "gone.png" (some "small") =
      (false, 0) ∧
    (filesDelete (fun _ _ => none) (fun p => p.isSome) "gone.png"
      (some "small")).2 = none ∧
    (filesDelete (fun _ _ => none) (fun p => p.isSome) "gone.png"
      (some "small")).1 = (fun (p : Option String) => p.isSome) none :=
  c9_exists_guards_none_path_delete_does_not (fun _ _ => none) (fun _ => true)
    (fun p => p.isSome) "gone.png" (some "small") rfl

/-- C10: when the source image is unbound, attribute access to a
registered size returns a freshly constructed `FallbackImage` (if a
fallback URL is configured) or empty Thumbnail (otherwise), leaves the
Manager — in particular its cache — unchanged, and leaves the system state
unchanged: no Metadata Store query and no generator call. -/
theorem c10_unbound_attr_access_is_effect_free (sizes : Registry)
    (mgr : ThumbnailManager) (name : String) (s : Sys) (sp : SizeSpec)
    (hsrc : mgr.sourceImage = "")
    (hreg : regLookup sizes name = some sp) :
    (ThumbnailManager.getattr sizes mgr name s).2.1 = mgr ∧
    (ThumbnailManager.getattr sizes mgr name s).2.2 = s ∧
    ((ThumbnailManager.getattr sizes mgr name s).1 =
        (match sp.fallbackImageUrl with
         | some u => AttrResult.fb ⟨u⟩
         | none => AttrResult.thumb ⟨none⟩)) := by
  cases hu : sp.fallbackImageUrl <;>
    simp [ThumbnailManager.getattr, hreg, hsrc, hu]

/-- C10 witness: unbound manager, sizes with and without a fallback leave
manager and state untouched. -/
theorem c10_unbound_attr_access_is_effect_free_witness :
    (ThumbnailManager.getattr [("large", ⟨none⟩)] (ThumbnailManager.mk0 "")
        "large" ⟨[], [], 0, 0, 0⟩).2.1 = ThumbnailManager.mk0 "" ∧
    (ThumbnailManager.getattr [("large", ⟨none⟩)] (ThumbnailManager.mk0 "")
        "large" ⟨[], [], 0, 0, 0⟩).2.2 = (⟨[], [], 0, 0, 0⟩ : Sys) ∧
    (ThumbnailManager.getattr [("large", ⟨none⟩)] (ThumbnailManager.mk0 "")
        "large" ⟨[], [], 0, 0, 0⟩).1 = AttrResult.thumb ⟨none⟩ :=
  c10_unbound_attr_access_is_effect_free [("large", ⟨none⟩)]
    (ThumbnailManager.mk0 "") "large" ⟨[], [], 0, 0, 0⟩ ⟨none⟩ rfl (by decide)

/-- C2 counterexample: `lrge` is in no registry entry, yet
`get_thumbnail "lrge"` on a bound manager silently proceeds — it performs
a Metadata Store query and a generator call instead of failing with an
unknown-size error: `get_thumbnail` never consults the Size Registry. -/
theorem c2_counterexample_get_unknown_size_proceeds :
    regLookup [("small", ⟨none⟩), ("default", ⟨some "http://fb.png"⟩),
        ("large", ⟨none⟩)] "lrge" = none ∧
    ((ThumbnailManager.mk0 "avatar.png").get_thumbnail "lrge" true
        ⟨[], [], 0, 0, 0⟩).2.2.storeQueries = 1 ∧
    ((ThumbnailManager.mk0 "avatar.png").get_thumbnail "lrge" true
        ⟨[], [], 0, 0, 0⟩).2.2.genCalls = 1 := by
  decide

/-- C2 (amended): attribute-style access rejects a size name absent from
the Size Registry with an `AttributeError` (distinct from a not-found
result), touching neither the manager nor the backends; but direct
`get_thumbnail` performs no registry validation at all — for any uncached
size name, known or not, it proceeds to query the Metadata Store. -/
theorem c2_amended_attr_rejects_unknown_size_get_does_not (sizes : Registry)
    (mgr : ThumbnailManager) (name : String) (b : Bool) (s : Sys)
    (hreg : regLookup sizes name = none)
    (hc : dictGet mgr.thumbnails name = none) :
    ThumbnailManager.getattr sizes mgr name s =
      (AttrResult.attrError "no attribute", mgr, s) ∧
    (mgr.get_thumbnail name b s).2.2.storeQueries = s.storeQueries + 1 := by
  constructor
  · simp [ThumbnailManager.getattr, hreg]
  · simp only [ThumbnailManager.get_thumbnail, hc, imagesGet]
    cases h : storeLookup s.store mgr.sourceImage name <;>
      simp [ThumbnailManager.create, imagesCreate]

/-- C2 witness: the unknown name `lrge` against a concrete registry. -/
theorem c2_amended_attr_rejects_unknown_size_get_does_not_witness :
    ThumbnailManager.getattr [("small", ⟨none⟩), ("large", ⟨none⟩)]
        (ThumbnailManager.mk0 "avatar.png") "lrge" ⟨[], [], 0, 0, 0⟩ =
      (AttrResult.attrError "no attribute", ThumbnailManager.mk0 "avatar.png",
       ⟨[], [], 0, 0, 0⟩) ∧
    ((ThumbnailManager.mk0 "avatar.png").get_thumbnail "lrge" false
        ⟨[], [], 0, 0, 0⟩).2.2.storeQueries = (⟨[], [], 0, 0, 0⟩ : Sys).storeQueries + 1 :=
  c2_amended_attr_rejects_unknown_size_get_does_not
    [("small", ⟨none⟩), ("large", ⟨none⟩)] (ThumbnailManager.mk0 "avatar.png")
    "lrge" false ⟨[], [], 0, 0, 0⟩ (by decide) (by decide)

/-- C3 counterexample: on a fresh bound manager, after `create "small"`
succeeds the manager's cache still has no entry for `small` (`create`
never writes the cache), and the subsequent `get_thumbnail "small"`
performs one further Metadata Store query — not zero as claimed. -/
theorem c3_counterexample_create_does_not_populate_cache :
    dictGet (ThumbnailManager.mk0 "avatar.png").thumbnails "small" = none ∧
    ((ThumbnailManager.mk0 "avatar.png").get_thumbnail "small" true
        ((ThumbnailManager.mk0 "avatar.png").create "small"
          ⟨[], [], 0, 0, 0⟩).2).2.2.storeQueries =
      ((ThumbnailManager.mk0 "avatar.png").create "small"
        ⟨[], [], 0, 0, 0⟩).2.storeQueries + 1 := by
  decide

/-- C3 (amended): `create(S)` persists a descriptor and returns its
thumbnail but leaves the manager's cache untouched; the next `get(S)`
(with S uncached) issues exactly one further Metadata Store query and no
generator call, returns a Thumbnail with the same storage path, and caches
it; from then on `get(S)` is a pure cache hit returning that same
thumbnail with no state change. -/
theorem c3_amended_create_then_get_requeries_once_then_hits
    (mgr : ThumbnailManager) (size : String) (s : Sys) (b b2 : Bool)
    (hc : dictGet mgr.thumbnails size = none) :
    (mgr.get_thumbnail size b (mgr.create size s).2).1.storagePath =
      (mgr.create size s).1.storagePath ∧
    (mgr.get_thumbnail size b (mgr.create size s).2).2.2.storeQueries =
      (mgr.create size s).2.storeQueries + 1 ∧
    (mgr.get_thumbnail size b (mgr.create size s).2).2.2.genCalls =
      (mgr.create size s).2.genCalls ∧
    ThumbnailManager.get_thumbnail
        (mgr.get_thumbnail size b (mgr.create size s).2).2.1 size b2
        (mgr.get_thumbnail size b (mgr.create size s).2).2.2 =
      ((mgr.get_thumbnail size b (mgr.create size s).2).1,
       (mgr.get_thumbnail size b (mgr.create size s).2).2.1,
       (mgr.get_thumbnail size b (mgr.create size s).2).2.2) := by
  have hfind : storeLookup ((mgr.create size s).2).store mgr.sourceImage size =
      some ⟨mgr.sourceImage, size,
        mgr.sourceImage ++ "_" ++ size ++ "_" ++ toString s.nextId⟩ := by
    simp only [ThumbnailManager.create, imagesCreate, storeLookup]
    rw [List.find?_cons_of_pos]
    simp
  have hget : mgr.get_thumbnail size b (mgr.create size s).2 =
      ((⟨some ⟨mgr.sourceImage, size, mgr.sourceImage ++ "_" ++ size ++ "_" ++ toString s.nextId⟩⟩ : Thumbnail),
       ({ mgr with thumbnails := dictInsert mgr.thumbnails size ⟨some ⟨mgr.sourceImage, size, mgr.sourceImage ++ "_" ++ size ++ "_" ++ toString s.nextId⟩⟩ } : ThumbnailManager),
       ({ (mgr.create size s).2 with storeQueries := ((mgr.create size s).2).storeQueries + 1 } : Sys)) := by
    simp only [ThumbnailManager.get_thumbnail, hc, imagesGet, hfind]
  rw [hget]
  refine ⟨?_, rfl, rfl, ?_⟩
  · rfl
  · simp only [ThumbnailManager.get_thumbnail, dictGet_dictInsert_self]

/-- C3 witness: fresh bound manager, size `small`, empty store. -/
theorem c3_amended_create_then_get_requeries_once_then_hits_witness :
    ((ThumbnailManager.mk0 "avatar.png").get_thumbnail "small" true
        ((ThumbnailManager.mk0 "avatar.png").create "small"
          ⟨[], [], 0, 0, 0⟩).2).1.storagePath =
      ((ThumbnailManager.mk0 "avatar.png").create "small"
        ⟨[], [], 0, 0, 0⟩).1.storagePath ∧
    ((ThumbnailManager.mk0 "avatar.png").get_thumbnail "small" true
        ((ThumbnailManager.mk0 "avatar.png").create "small"
          ⟨[], [], 0, 0, 0⟩).2).2.2.storeQueries =
      ((ThumbnailManager.mk0 "avatar.png").create "small"
        ⟨[], [], 0, 0, 0⟩).2.storeQueries + 1 ∧
    ((ThumbnailManager.mk0 "avatar.png").get_thumbnail "small" true
        ((ThumbnailManager.mk0 "avatar.png").create "small"
          ⟨[], [], 0, 0, 0⟩).2).2.2.genCalls =
      ((ThumbnailManager.mk0 "avatar.png").create "small"
        ⟨[], [], 0, 0, 0⟩).2.genCalls ∧
    ThumbnailManager.get_thumbnail
        ((ThumbnailManager.mk0 "avatar.png").get_thumbnail "small" true
          ((ThumbnailManager.mk0 "avatar.png").create "small"
            ⟨[], [], 0, 0, 0⟩).2).2.1 "small" true
        ((ThumbnailManager.mk0 "avatar.png").get_thumbnail "small" true
          ((ThumbnailManager.mk0 "avatar.png").create "small"
            ⟨[], [], 0, 0, 0⟩).2).2.2 =
      (((ThumbnailManager.mk0 "avatar.png").get_thumbnail "small" true
          ((ThumbnailManager.mk0 "avatar.png").create "small"
            ⟨[], [], 0, 0, 0⟩).2).1,
       ((ThumbnailManager.mk0 "avatar.png").get_thumbnail "small" true
          ((ThumbnailManager.mk0 "avatar.png").create "small"
            ⟨[], [], 0, 0, 0⟩).2).2.1,
       ((ThumbnailManager.mk0 "avatar.png").get_thumbnail "small" true
          ((ThumbnailManager.mk0 "avatar.png").create "small"
            ⟨[], [], 0, 0, 0⟩).2).2.2) :=
  c3_amended_create_then_get_requeries_once_then_hits
    (ThumbnailManager.mk0 "avatar.png") "small" ⟨[], [], 0, 0, 0⟩ true true
    (by decide)

/-- C4 counterexample: a manager whose cache holds an entry for `small`
while the Metadata Store persists no descriptor at all: `all()` returns a
mapping with key set `{small}`, strictly larger than the persisted size
set, which is empty — the stale cached size is not evicted. -/
theorem c4_counterexample_all_keeps_stale_cache_key :
    dictKeys ((ThumbnailManager.mk "avatar.png"
        [("small", ⟨some ⟨"other.png", "small", "p0"⟩⟩)]).all
        ⟨[], [], 0, 0, 0⟩).1 = ["small"] ∧
    (((⟨[], [], 0, 0, 0⟩ : Sys).store.filter
        (fun m => m.source == "avatar.png")).map (fun m => m.size)) = [] := by
  decide

/-- C4 (amended): `all()` performs exactly one Metadata Store query and
never invokes the generator, and returns the merged cache: a size is a key
of the result iff it was already a cache key or it has a persisted
descriptor for this source — previously cached sizes are kept even without
a descriptor. -/
theorem c4_amended_all_returns_merged_cache (mgr : ThumbnailManager) (s : Sys)
    (k : String) :
    (mgr.all s).2.2.storeQueries = s.storeQueries + 1 ∧
    (mgr.all s).2.2.genCalls = s.genCalls ∧
    (k ∈ dictKeys (mgr.all s).1 ↔
      k ∈ dictKeys mgr.thumbnails ∨
      k ∈ (s.store.filter (fun m => m.source == mgr.sourceImage)).map
        (fun m => m.size)) := by
  refine ⟨rfl, rfl, ?_⟩
  simp only [ThumbnailManager.all, getThumbnailsQuery]
  exact mem_dictKeys_foldl _ _ _

/-- C7: `fetch_thumbnails` over a nonempty collection of images all of
whose Metadata Store backends lack batch multi-get fails with
`NotImplementedError` having performed zero Metadata Store queries — in
particular, zero per-image fallback queries. -/
theorem c7_fetch_non_batch_backend_fails_immediately (images : List FetchImage)
    (hne : images ≠ [])
    (hnb : ∀ img ∈ images, img.backend.supportsBatch = false) :
    fetch_thumbnails images = (Except.error "NotImplementedError", 0) := by
  have hmapne : images.map (fun i => i.backend.ident) ≠ [] := by
    cases images with
    | nil => exact absurd rfl hne
    | cons a l => simp
  rw [fetch_thumbnails]
  cases hd : (images.map (fun i => i.backend.ident)).dedup with
  | nil => exact absurd ((List.dedup_eq_nil _).mp hd) hmapne
  | cons j rest =>
    have hj : j ∈ images.map (fun i => i.backend.ident) := by
      rw [← List.mem_dedup, hd]
      exact List.mem_cons_self _ _
    obtain ⟨img, himg, hid⟩ := List.mem_map.mp hj
    have hfind : (images.find? (fun im => im.backend.ident == j)).isSome := by
      rw [List.find?_isSome]
      exact ⟨img, himg, by simp [hid]⟩
    obtain ⟨rep, hrep⟩ := Option.isSome_iff_exists.mp hfind
    have hmem : rep ∈ images := List.mem_of_find?_eq_some hrep
    simp only [fetchGroups, hrep]
    simp [hnb rep hmem]

/-- C7 witness: one image over a backend without batch support. -/
theorem c7_fetch_non_batch_backend_fails_immediately_witness :
    fetch_thumbnails [⟨"avatar.png", ⟨0, false, []⟩, []⟩] =
      (Except.error "NotImplementedError", 0) :=
  c7_fetch_non_batch_backend_fails_immediately
    [⟨"avatar.png", ⟨0, false, []⟩, []⟩] (by decide) (by decide)

end Thumbnails
